import Mathlib

/-!
# stash-adduser

A shallow embedding of `main` of `src/stash-adduser.c` and the properties of
its two provisioning paths (direct file method, running-instance method).

The program is a single `main`.  It talks to two libraries that are not part
of the file: the storage library (`storage_*`) and the client library
(`stash_*`).  The embedding takes each library as a record of answers (what
every call returns) and computes, for a given list of `getopt` results, the
sequence of library calls `main` issues, the messages it prints and the way
the process ends.
-/

namespace StashAdduser

/-! ## Data model -/

/-- One iteration of the `getopt(argc, argv, "hvd:u:p:H:U:P:")` loop: the
option character returned in `c`, with `optarg` for the options that take an
argument.  `illegal c` is every value that reaches the `default:` label. -/
inductive Opt where
  | h
  | v
  | d (optarg : String)
  | u (optarg : String)
  | p (optarg : String)
  | H (optarg : String)
  | U (optarg : String)
  | P (optarg : String)
  | illegal (c : Char)
  deriving DecidableEq, Repr

/-- The locals of `main` that the option loop assigns (`NULL` is `none`) and
the global `verbose` (a `short int`, kept as its 16-bit pattern). -/
structure Params where
  basedir : Option String
  newuser : Option String
  newpass : Option String
  host : Option String
  username : Option String
  password : Option String
  verbose : Nat
  deriving DecidableEq, Repr

/-- A call to one of the two libraries, with the arguments that `main`
chooses (the handle and the constant arguments `KEEP_OPEN`, `IGNORE_DATA`,
`NULL_USER_ID`, `NULL` are left out). -/
inductive Call where
  | storage_init
  | storage_lock_master (basedir : String)
  | storage_process (basedir : String)
  | storage_username_avail (newuser : String)
  | storage_create_username (newuser : String)
  | storage_set_password (uid : Int) (newpass : String)
  | storage_unlock_master (basedir : String)
  | storage_free
  | stash_init
  | stash_authority (username password : String)
  | stash_addserver (host : String) (priority : Nat)
  | stash_connect
  | stash_err_text (res : Nat)
  | stash_create_username (newuser : String)
  | stash_set_password (uid : Int) (newpass : String)
  | stash_free
  deriving DecidableEq, Repr

/-- What `main` prints (`usage` and `created` on stdout, the rest on
stderr). -/
inductive Msg where
  | usage
  | illegal_argument (c : Char)
  | missing_d_or_H
  | both_d_and_H
  | missing_u
  | in_use (newuser : String)
  | created (newuser : String)
  | unable_to_connect (res : Nat)
  | unexpected_error (res : Nat)
  deriving DecidableEq, Repr

/-- How the process ends: `exit status` for `exit(status)` and for
`return(result)` from `main`, `abort` for a failed `assert`. -/
inductive Ending where
  | exit (status : Nat)
  | abort
  deriving DecidableEq, Repr

/-- One execution of `main`: the library calls in the order issued, the
messages in the order printed, and the ending. -/
structure Run where
  calls : List Call
  msgs : List Msg
  ending : Ending
  deriving DecidableEq, Repr

/-- The storage library as seen by `main`: what each `storage_*` call
returns.  `storage_init` is whether the handle is non-`NULL`.
`storage_lock_master`, `storage_process` and `storage_set_password` say
whether the operation succeeded; `main` never looks at them.
`storage_create_username` is `none` for a `NULL` record, else `user->uid`. -/
structure Storage where
  storage_init : Bool
  storage_lock_master : String → Bool
  storage_process : String → Bool
  storage_username_avail : String → Int
  storage_create_username : String → Option Int
  storage_set_password : Int → String → Bool

/-- The client library as seen by `main`: the two result codes of `stash.h`
that `main` names, and what each `stash_*` call returns.
`stash_create_username` gives the result code and the value left in `uid`
(which `main` sets to 0 before the call). -/
structure Stash where
  STASH_ERR_OK : Nat
  STASH_ERR_USEREXISTS : Nat
  stash_init : Bool
  stash_connect : Nat
  stash_create_username : String → Nat × Int
  stash_set_password : Int → String → Nat

/-! ## The option loop (lines 69-122) -/

/-- The locals before the loop: every pointer `NULL`, `verbose = 0`. -/
def Params.start : Params :=
  ⟨none, none, none, none, none, none, 0⟩

/-- The `while ((c = getopt(...)) != -1)` loop over the successive getopt
results.  `-h` prints the usage and exits with `EXIT_SUCCESS`; the `default:`
label prints and exits with 1; both end the process inside the loop. -/
def getopt_loop : List Opt → Params → Except Run Params
  | [], q => .ok q
  | Opt.h :: _, _ => .error ⟨[], [Msg.usage], Ending.exit 0⟩
  | Opt.v :: rest, q => getopt_loop rest { q with verbose := (q.verbose + 1) % 65536 }
  | Opt.d a :: rest, q => getopt_loop rest { q with basedir := some a }
  | Opt.u a :: rest, q => getopt_loop rest { q with newuser := some a }
  | Opt.p a :: rest, q => getopt_loop rest { q with newpass := some a }
  | Opt.H a :: rest, q => getopt_loop rest { q with host := some a }
  | Opt.U a :: rest, q => getopt_loop rest { q with username := some a }
  | Opt.P a :: rest, q => getopt_loop rest { q with password := some a }
  | Opt.illegal c :: _, _ => .error ⟨[], [Msg.illegal_argument c], Ending.exit 1⟩

/-! ## The direct file method (lines 140-177) -/

/-- The `if (basedir)` branch followed by the final `return(result)`. -/
def local_path (L : Storage) (basedir newuser : String) (newpass : Option String)
    (verbose : Nat) : Run :=
  -- storage = storage_init(NULL); assert(storage);
  if L.storage_init = false then
    ⟨[Call.storage_init], [], Ending.abort⟩
  else
    -- storage_lock_master(storage, basedir);
    -- storage_process(storage, basedir, KEEP_OPEN, IGNORE_DATA);
    let opened : List Call :=
      [Call.storage_init, Call.storage_lock_master basedir, Call.storage_process basedir,
       Call.storage_username_avail newuser]
    let closing : List Call := [Call.storage_unlock_master basedir, Call.storage_free]
    if L.storage_username_avail newuser = 0 then
      -- fprintf(stderr, "Username '%s' is already in use.\n"); result = 1;
      ⟨opened ++ closing, [Msg.in_use newuser], Ending.exit 1⟩
    else
      -- user = storage_create_username(storage, NULL_USER_ID, newuser);
      match L.storage_create_username newuser with
      | none =>
        -- assert(user);
        ⟨opened ++ [Call.storage_create_username newuser], [], Ending.abort⟩
      | some uid =>
        if uid ≤ 0 then
          -- assert(user->uid > 0);
          ⟨opened ++ [Call.storage_create_username newuser], [], Ending.abort⟩
        else
          -- if (newpass) storage_set_password(storage, NULL_USER_ID, user->uid, newpass);
          let setpw : List Call :=
            match newpass with
            | some pw => [Call.storage_set_password uid pw]
            | none => []
          -- if (verbose) printf("Username '%s' created.\n", newuser);
          let said : List Msg := if verbose ≠ 0 then [Msg.created newuser] else []
          ⟨opened ++ [Call.storage_create_username newuser] ++ setpw ++ closing, said,
            Ending.exit 0⟩

/-! ## The running-instance method (lines 178-239) -/

/-- The `else` branch (network version) followed by the final
`return(result)`. -/
def remote_path (R : Stash) (host : String) (username password : Option String)
    (newuser : String) (newpass : Option String) (verbose : Nat) : Run :=
  -- stash = stash_init(NULL); assert(stash);
  if R.stash_init = false then
    ⟨[Call.stash_init], [], Ending.abort⟩
  else
    match username, password with
    | none, _ => ⟨[Call.stash_init], [], Ending.abort⟩       -- assert(username);
    | some _, none => ⟨[Call.stash_init], [], Ending.abort⟩  -- assert(password);
    | some au, some ap =>
      -- stash_authority(stash, username, password); stash_addserver(stash, host, 10);
      -- res = stash_connect(stash);
      let setup : List Call :=
        [Call.stash_init, Call.stash_authority au ap, Call.stash_addserver host 10,
         Call.stash_connect]
      if R.stash_connect ≠ 0 then
        -- fprintf(stderr, "Unable to connect: %04X:%s\n", res, stash_err_text(res));
        -- result is left at 0
        ⟨setup ++ [Call.stash_err_text R.stash_connect, Call.stash_free],
          [Msg.unable_to_connect R.stash_connect], Ending.exit 0⟩
      else
        -- uid = 0; res = stash_create_username(stash, newuser, &uid);
        let res := (R.stash_create_username newuser).1
        let uid := (R.stash_create_username newuser).2
        let asked : List Call := setup ++ [Call.stash_create_username newuser]
        if res ≠ R.STASH_ERR_OK then
          -- switch(res) ... result = 1;
          if res = R.STASH_ERR_USEREXISTS then
            ⟨asked ++ [Call.stash_free], [Msg.in_use newuser], Ending.exit 1⟩
          else
            ⟨asked ++ [Call.stash_err_text res, Call.stash_free], [Msg.unexpected_error res],
              Ending.exit 1⟩
        else if uid ≤ 0 then
          -- assert(uid > 0);
          ⟨asked, [], Ending.abort⟩
        else
          let said : List Msg := if verbose ≠ 0 then [Msg.created newuser] else []
          match newpass with
          | some pw =>
            -- res = stash_set_password(stash, uid, NULL, newpass); assert(res == 0);
            if R.stash_set_password uid pw ≠ 0 then
              ⟨asked ++ [Call.stash_set_password uid pw], [], Ending.abort⟩
            else
              ⟨asked ++ [Call.stash_set_password uid pw, Call.stash_free], said, Ending.exit 0⟩
          | none => ⟨asked ++ [Call.stash_free], said, Ending.exit 0⟩

/-! ## `main` -/

/-- Lines 124-245: the check of the required parameters and the dispatch to
one of the two methods. -/
def main_body (L : Storage) (R : Stash) (q : Params) : Run :=
  match q.basedir, q.host with
  | none, none => ⟨[], [Msg.missing_d_or_H], Ending.exit 1⟩
  | some _, some _ => ⟨[], [Msg.both_d_and_H], Ending.exit 1⟩
  | some basedir, none =>
    match q.newuser with
    | none => ⟨[], [Msg.missing_u], Ending.exit 1⟩
    | some newuser => local_path L basedir newuser q.newpass q.verbose
  | none, some host =>
    match q.newuser with
    | none => ⟨[], [Msg.missing_u], Ending.exit 1⟩
    | some newuser => remote_path R host q.username q.password newuser q.newpass q.verbose

/-- The whole of `main`, on the successive getopt results. -/
def main (opts : List Opt) (L : Storage) (R : Stash) : Run :=
  match getopt_loop opts Params.start with
  | .error r => r
  | .ok q => main_body L R q


/-! ## Vocabulary of the properties -/

/-- Whether the option loop meets a `-d <path>`. -/
def dir_supplied (opts : List Opt) : Bool :=
  opts.any fun o =>
    match o with
    | Opt.d _ => true
    | _ => false

/-- Whether the option loop meets a `-H <host:port>`. -/
def host_supplied (opts : List Opt) : Bool :=
  opts.any fun o =>
    match o with
    | Opt.H _ => true
    | _ => false

/-- The storage calls of the direct file method in program order. -/
def local_order (basedir newuser : String) (uid : Int) (newpass : String) : List Call :=
  [Call.storage_init, Call.storage_lock_master basedir, Call.storage_process basedir,
   Call.storage_username_avail newuser, Call.storage_create_username newuser,
   Call.storage_set_password uid newpass, Call.storage_unlock_master basedir,
   Call.storage_free]

/-- The client calls of the running-instance method in program order
(`stash_err_text` is called only from the two error reports, after the
request that failed). -/
def remote_order (username password host newuser : String) (uid : Int) (newpass : String)
    (res : Nat) : List Call :=
  [Call.stash_init, Call.stash_authority username password, Call.stash_addserver host 10,
   Call.stash_connect, Call.stash_create_username newuser,
   Call.stash_set_password uid newpass, Call.stash_err_text res, Call.stash_free]

/-- The run of the direct file method that reports a username in use. -/
def conflict_run (basedir newuser : String) : Run :=
  ⟨[Call.storage_init, Call.storage_lock_master basedir, Call.storage_process basedir,
    Call.storage_username_avail newuser, Call.storage_unlock_master basedir,
    Call.storage_free],
   [Msg.in_use newuser], Ending.exit 1⟩

/-- A storage library with fixed answers, for concrete runs. -/
def sample_storage (locked loaded : Bool) (avail : Int) (user : Option Int) (pwset : Bool) :
    Storage :=
  ⟨true, fun _ => locked, fun _ => loaded, fun _ => avail, fun _ => user, fun _ _ => pwset⟩

/-- A client library with fixed answers, for concrete runs (result codes 0
for ok and 5 for an existing user). -/
def sample_stash (connect : Nat) (created : Nat × Int) (pwres : Nat) : Stash :=
  ⟨0, 5, true, connect, fun _ => created, fun _ _ => pwres⟩

/-- Modelled from the spec: the storage library's namespace index, which is
not part of the source file (section 3: the store handle holds "an in-memory
index of existing usernames sufficient to answer availability queries";
section 6: "create a username yielding a positive user id").  A store whose
index holds `names`: a username is available (non-zero) exactly when it is
not in the index, and creation yields a positive id. -/
def store_backend (names : List String) : Storage :=
  ⟨true, fun _ => true, fun _ => true, fun u => if u ∈ names then 0 else 1,
   fun _ => some (names.length + 1), fun _ _ => true⟩

/-- Modelled from the spec: the index a run leaves behind, the usernames it
created added to those it found (section 3: a created record carries its
username within the namespace). -/
def store_after (names : List String) (r : Run) : List String :=
  names ++ r.calls.filterMap fun c =>
    match c with
    | Call.storage_create_username u => some u
    | _ => none

/-! ## Lemmas on the option loop and the dispatch -/

theorem getopt_loop_error (opts : List Opt) (q : Params) (r : Run)
    (h : getopt_loop opts q = .error r) :
    r.calls = [] ∧ (Opt.h ∉ opts → r.ending = Ending.exit 1) := by
  induction opts generalizing q with
  | nil => simp [getopt_loop] at h
  | cons o rest ih =>
    cases o <;> simp only [getopt_loop] at h
    case h => cases h; simp
    case illegal c => cases h; simp
    all_goals
      obtain ⟨h1, h2⟩ := ih _ h
      refine ⟨h1, fun hn => h2 ?_⟩
      intro hm; exact hn (List.mem_cons_of_mem _ hm)

theorem getopt_loop_basedir (opts : List Opt) (q q' : Params)
    (h : getopt_loop opts q = .ok q') :
    q'.basedir.isSome = (q.basedir.isSome || dir_supplied opts) := by
  induction opts generalizing q with
  | nil => simp [getopt_loop] at h; simp [h, dir_supplied]
  | cons o rest ih =>
    cases o <;> simp only [getopt_loop] at h
    case h => cases h
    case illegal c => cases h
    all_goals
      have := ih _ h
      simp [dir_supplied] at this ⊢
      simp [this]

theorem getopt_loop_host (opts : List Opt) (q q' : Params)
    (h : getopt_loop opts q = .ok q') :
    q'.host.isSome = (q.host.isSome || host_supplied opts) := by
  induction opts generalizing q with
  | nil => simp [getopt_loop] at h; simp [h, host_supplied]
  | cons o rest ih =>
    cases o <;> simp only [getopt_loop] at h
    case h => cases h
    case illegal c => cases h
    all_goals
      have := ih _ h
      simp [host_supplied] at this ⊢
      simp [this]

theorem getopt_loop_newuser (opts : List Opt) (q q' : Params)
    (h : getopt_loop opts q = .ok q') (u : String) (hu : q'.newuser = some u) :
    q.newuser = some u ∨ Opt.u u ∈ opts := by
  induction opts generalizing q with
  | nil => simp [getopt_loop] at h; simp [h, hu]
  | cons o rest ih =>
    cases o <;> simp only [getopt_loop] at h
    case h => cases h
    case illegal c => cases h
    all_goals
      rcases ih _ h with h1 | h1
      · simp at h1 ⊢
        first
          | exact Or.inl h1
          | exact Or.inr (Or.inl h1.symm)
      · exact Or.inr (List.mem_cons_of_mem _ h1)

/-- Every run of `main` ends in the option loop or the parameter check with
no library call, or is a run of one of the two methods. -/
theorem main_cases (opts : List Opt) (L : Storage) (R : Stash) :
    ((main opts L R).calls = [] ∧ (Opt.h ∉ opts → (main opts L R).ending = Ending.exit 1)) ∨
    (∃ q b u, getopt_loop opts Params.start = .ok q ∧ q.basedir = some b ∧ q.host = none ∧
      q.newuser = some u ∧ main opts L R = local_path L b u q.newpass q.verbose) ∨
    (∃ q h u, getopt_loop opts Params.start = .ok q ∧ q.basedir = none ∧ q.host = some h ∧
      q.newuser = some u ∧
      main opts L R = remote_path R h q.username q.password u q.newpass q.verbose) := by
  cases hq : getopt_loop opts Params.start with
  | error r =>
    have hm : main opts L R = r := by simp [main, hq]
    rw [hm]
    exact Or.inl (getopt_loop_error opts _ r hq)
  | ok q =>
    have hm : main opts L R = main_body L R q := by simp [main, hq]
    rw [hm]
    rcases hb : q.basedir with _ | b <;> rcases hh : q.host with _ | h <;>
      rcases hu : q.newuser with _ | u
    case some.none.some =>
      exact Or.inr (Or.inl ⟨q, b, u, rfl, hb, hh, hu, by simp [main_body, hb, hh, hu]⟩)
    case none.some.some =>
      exact Or.inr (Or.inr ⟨q, h, u, rfl, hb, hh, hu, by simp [main_body, hb, hh, hu]⟩)
    all_goals
      left
      simp [main_body, hb, hh, hu]

/-- The five runs of the direct file method, each with the answers of the
storage library that lead to it. -/
theorem local_path_shapes (L : Storage) (b u : String) (np : Option String) (v : Nat) :
    (L.storage_init = false ∧
      local_path L b u np v = ⟨[Call.storage_init], [], Ending.abort⟩) ∨
    (L.storage_init = true ∧ L.storage_username_avail u = 0 ∧
      local_path L b u np v = conflict_run b u) ∨
    (L.storage_init = true ∧ L.storage_username_avail u ≠ 0 ∧
      (L.storage_create_username u = none ∨
        ∃ id, L.storage_create_username u = some id ∧ id ≤ 0) ∧
      local_path L b u np v =
        ⟨[Call.storage_init, Call.storage_lock_master b, Call.storage_process b,
          Call.storage_username_avail u, Call.storage_create_username u], [],
          Ending.abort⟩) ∨
    (∃ id pw, L.storage_init = true ∧ L.storage_username_avail u ≠ 0 ∧
      L.storage_create_username u = some id ∧ 0 < id ∧ np = some pw ∧
      local_path L b u np v =
        ⟨[Call.storage_init, Call.storage_lock_master b, Call.storage_process b,
          Call.storage_username_avail u, Call.storage_create_username u,
          Call.storage_set_password id pw, Call.storage_unlock_master b, Call.storage_free],
          if v ≠ 0 then [Msg.created u] else [], Ending.exit 0⟩) ∨
    (∃ id, L.storage_init = true ∧ L.storage_username_avail u ≠ 0 ∧
      L.storage_create_username u = some id ∧ 0 < id ∧ np = none ∧
      local_path L b u np v =
        ⟨[Call.storage_init, Call.storage_lock_master b, Call.storage_process b,
          Call.storage_username_avail u, Call.storage_create_username u,
          Call.storage_unlock_master b, Call.storage_free],
          if v ≠ 0 then [Msg.created u] else [], Ending.exit 0⟩) := by
  unfold local_path conflict_run
  rcases hi : L.storage_init with _ | _
  · simp
  · rcases Decidable.em (L.storage_username_avail u = 0) with ha | ha
    · simp [ha]
    · rcases hc : L.storage_create_username u with _ | id
      · simp [ha]
      · rcases Decidable.em (id ≤ 0) with hid | hid
        · simp [ha, hid]
        · cases np with
          | none => simp [ha, hid]; omega
          | some pw => simp [ha, hid]; omega

/-- The eight runs of the running-instance method, each with the answers
of the client library that lead to it. -/
theorem remote_path_shapes (R : Stash) (h : String) (au ap : Option String) (u : String)
    (np : Option String) (v : Nat) :
    ((R.stash_init = false ∨ au = none ∨ ap = none) ∧
      remote_path R h au ap u np v = ⟨[Call.stash_init], [], Ending.abort⟩) ∨
    (∃ a p, R.stash_init = true ∧ au = some a ∧ ap = some p ∧ R.stash_connect ≠ 0 ∧
      remote_path R h au ap u np v =
        ⟨[Call.stash_init, Call.stash_authority a p, Call.stash_addserver h 10,
          Call.stash_connect, Call.stash_err_text R.stash_connect, Call.stash_free],
          [Msg.unable_to_connect R.stash_connect], Ending.exit 0⟩) ∨
    (∃ a p, R.stash_init = true ∧ au = some a ∧ ap = some p ∧ R.stash_connect = 0 ∧
      (R.stash_create_username u).1 ≠ R.STASH_ERR_OK ∧
      (R.stash_create_username u).1 = R.STASH_ERR_USEREXISTS ∧
      remote_path R h au ap u np v =
        ⟨[Call.stash_init, Call.stash_authority a p, Call.stash_addserver h 10,
          Call.stash_connect, Call.stash_create_username u, Call.stash_free],
          [Msg.in_use u], Ending.exit 1⟩) ∨
    (∃ a p, R.stash_init = true ∧ au = some a ∧ ap = some p ∧ R.stash_connect = 0 ∧
      (R.stash_create_username u).1 ≠ R.STASH_ERR_OK ∧
      (R.stash_create_username u).1 ≠ R.STASH_ERR_USEREXISTS ∧
      remote_path R h au ap u np v =
        ⟨[Call.stash_init, Call.stash_authority a p, Call.stash_addserver h 10,
          Call.stash_connect, Call.stash_create_username u,
          Call.stash_err_text (R.stash_create_username u).1, Call.stash_free],
          [Msg.unexpected_error (R.stash_create_username u).1], Ending.exit 1⟩) ∨
    (∃ a p, R.stash_init = true ∧ au = some a ∧ ap = some p ∧ R.stash_connect = 0 ∧
      (R.stash_create_username u).1 = R.STASH_ERR_OK ∧ (R.stash_create_username u).2 ≤ 0 ∧
      remote_path R h au ap u np v =
        ⟨[Call.stash_init, Call.stash_authority a p, Call.stash_addserver h 10,
          Call.stash_connect, Call.stash_create_username u], [], Ending.abort⟩) ∨
    (∃ a p pw, R.stash_init = true ∧ au = some a ∧ ap = some p ∧ R.stash_connect = 0 ∧
      (R.stash_create_username u).1 = R.STASH_ERR_OK ∧ 0 < (R.stash_create_username u).2 ∧
      np = some pw ∧ R.stash_set_password (R.stash_create_username u).2 pw ≠ 0 ∧
      remote_path R h au ap u np v =
        ⟨[Call.stash_init, Call.stash_authority a p, Call.stash_addserver h 10,
          Call.stash_connect, Call.stash_create_username u,
          Call.stash_set_password (R.stash_create_username u).2 pw], [], Ending.abort⟩) ∨
    (∃ a p pw, R.stash_init = true ∧ au = some a ∧ ap = some p ∧ R.stash_connect = 0 ∧
      (R.stash_create_username u).1 = R.STASH_ERR_OK ∧ 0 < (R.stash_create_username u).2 ∧
      np = some pw ∧ R.stash_set_password (R.stash_create_username u).2 pw = 0 ∧
      remote_path R h au ap u np v =
        ⟨[Call.stash_init, Call.stash_authority a p, Call.stash_addserver h 10,
          Call.stash_connect, Call.stash_create_username u,
          Call.stash_set_password (R.stash_create_username u).2 pw, Call.stash_free],
          if v ≠ 0 then [Msg.created u] else [], Ending.exit 0⟩) ∨
    (∃ a p, R.stash_init = true ∧ au = some a ∧ ap = some p ∧ R.stash_connect = 0 ∧
      (R.stash_create_username u).1 = R.STASH_ERR_OK ∧ 0 < (R.stash_create_username u).2 ∧
      np = none ∧
      remote_path R h au ap u np v =
        ⟨[Call.stash_init, Call.stash_authority a p, Call.stash_addserver h 10,
          Call.stash_connect, Call.stash_create_username u, Call.stash_free],
          if v ≠ 0 then [Msg.created u] else [], Ending.exit 0⟩) := by
  unfold remote_path
  rcases hi : R.stash_init with _ | _
  · simp
  · cases au with
    | none => simp
    | some a =>
      cases ap with
      | none => simp
      | some p =>
        rcases Decidable.em (R.stash_connect = 0) with hc | hc
        · rcases Decidable.em ((R.stash_create_username u).1 = R.STASH_ERR_OK) with hr | hr
          · rcases Decidable.em ((R.stash_create_username u).2 ≤ 0) with hid | hid
            · simp [hc, hr, hid]
            · have hpos : 0 < (R.stash_create_username u).2 := by omega
              cases np with
              | none => simp [hc, hr, hid, hpos]
              | some pw =>
                rcases Decidable.em
                  (R.stash_set_password (R.stash_create_username u).2 pw = 0) with hs | hs
                · simp [hc, hr, hid, hpos, hs]
                · simp [hc, hr, hid, hpos, hs]
          · rcases Decidable.em
              ((R.stash_create_username u).1 = R.STASH_ERR_USEREXISTS) with he | he
            · have hne : ¬ R.STASH_ERR_USEREXISTS = R.STASH_ERR_OK := by
                rw [← he]; exact hr
              simp [hc, he, hne]
            · simp [hc, hr, he]
        · simp [hc]

/-! ## Parameter check: backend selection (claim C1) -/

/-- C1, as stated, fails: with `-d`, `-H` and `-h` all supplied the loop
reaches `-h`, prints the usage and ends with `EXIT_SUCCESS`, status 0. -/
theorem exclusivity_help_exits_zero :
    dir_supplied [Opt.d "/var/stash", Opt.H "localhost:13600", Opt.h] = true ∧
    host_supplied [Opt.d "/var/stash", Opt.H "localhost:13600", Opt.h] = true ∧
    (main [Opt.d "/var/stash", Opt.H "localhost:13600", Opt.h]
      (sample_storage true true 1 (some 1) true) (sample_stash 0 (0, 1) 0)).ending
      = Ending.exit 0 := by
  decide

/-- C1, amended: when both `-d` and `-H` are supplied, or neither, `main`
issues no library call at all, and unless `-h` is among the options it ends
with status 1. -/
theorem exclusivity_no_backend_call (opts : List Opt) (L : Storage) (R : Stash)
    (hx : dir_supplied opts = host_supplied opts) :
    (main opts L R).calls = [] ∧
    (Opt.h ∉ opts → (main opts L R).ending = Ending.exit 1) := by
  rcases main_cases opts L R with h | ⟨q, b, u, hq, hb, hh, _, _⟩ | ⟨q, h, u, hq, hb, hh, _, _⟩
  · exact h
  · have h1 := getopt_loop_basedir opts _ _ hq
    have h2 := getopt_loop_host opts _ _ hq
    simp [hb, hh, Params.start] at h1 h2
    simp [h1, h2] at hx
  · have h1 := getopt_loop_basedir opts _ _ hq
    have h2 := getopt_loop_host opts _ _ hq
    simp [hb, hh, Params.start] at h1 h2
    simp [h1, h2] at hx

/-- A run with `-u`, `-d` and `-H` to which the amended C1 applies: no call, status 1. -/
theorem exclusivity_no_backend_call_witness :
    dir_supplied [Opt.u "alice", Opt.d "/var/stash", Opt.H "localhost:13600"]
      = host_supplied [Opt.u "alice", Opt.d "/var/stash", Opt.H "localhost:13600"] ∧
    (main [Opt.u "alice", Opt.d "/var/stash", Opt.H "localhost:13600"]
      (sample_storage true true 1 (some 1) true) (sample_stash 0 (0, 1) 0)).calls = [] ∧
    (Opt.h ∉ [Opt.u "alice", Opt.d "/var/stash", Opt.H "localhost:13600"] →
      (main [Opt.u "alice", Opt.d "/var/stash", Opt.H "localhost:13600"]
        (sample_storage true true 1 (some 1) true) (sample_stash 0 (0, 1) 0)).ending
        = Ending.exit 1) :=
  ⟨by decide, exclusivity_no_backend_call _ _ _ (by decide)⟩


/-! ## Direct file method: conflict (claim C2) -/

/-- C2: in every run in which `storage_username_avail` is asked about the
new username and answers 0 (in use), `main` is exactly the conflict run:
the calls are init, lock, process, avail, unlock, free (no create-username
and no set-password, the master lock released and the handle freed), the
only message is the "already in use" report, and `main` returns 1 (no
abort).  In particular this is the run against a store (modelled index) in
which an earlier run created the username. -/
theorem local_conflict (opts : List Opt) (L : Storage) (R : Stash) (u : String)
    (hq : Call.storage_username_avail u ∈ (main opts L R).calls) :
    (L.storage_username_avail u = 0 → ∃ b, main opts L R = conflict_run b u) ∧
    (∀ names opts0 R0,
      L = store_backend (store_after names (main opts0 (store_backend names) R0)) →
      Call.storage_create_username u ∈ (main opts0 (store_backend names) R0).calls →
      ∃ b, main opts L R = conflict_run b u) := by
  have key : L.storage_username_avail u = 0 → ∃ b, main opts L R = conflict_run b u := by
    intro h0
    rcases main_cases opts L R with h | ⟨q, b, w, _, _, _, _, hm⟩ | ⟨q, h, w, _, _, _, _, hm⟩
    · simp [h.1] at hq
    · rw [hm] at hq ⊢
      rcases local_path_shapes L b w q.newpass q.verbose with
        ⟨_, e⟩ | ⟨_, _, e⟩ | ⟨_, ha, _, e⟩ | ⟨id, pw, _, ha, _, _, _, e⟩ |
        ⟨id, _, ha, _, _, _, e⟩ <;>
      rw [e] at hq ⊢ <;> simp [conflict_run] at hq <;> subst hq
      · exact ⟨b, rfl⟩
      · exact absurd h0 ha
      · exact absurd h0 ha
      · exact absurd h0 ha
    · rw [hm] at hq
      rcases remote_path_shapes R h q.username q.password w q.newpass q.verbose with
        ⟨_, e⟩ | ⟨a, p, _, _, _, _, e⟩ | ⟨a, p, _, _, _, _, _, _, e⟩ |
        ⟨a, p, _, _, _, _, _, _, e⟩ | ⟨a, p, _, _, _, _, _, _, e⟩ |
        ⟨a, p, pw, _, _, _, _, _, _, _, _, e⟩ | ⟨a, p, pw, _, _, _, _, _, _, _, _, e⟩ |
        ⟨a, p, _, _, _, _, _, _, _, e⟩ <;>
      rw [e] at hq <;> simp at hq
  refine ⟨key, ?_⟩
  intro names opts0 R0 hL hc
  apply key
  subst hL
  have hin : u ∈ store_after names (main opts0 (store_backend names) R0) := by
    unfold store_after
    refine List.mem_append_right _ ?_
    rw [List.mem_filterMap]
    exact ⟨_, hc, rfl⟩
  show (if u ∈ store_after names (main opts0 (store_backend names) R0) then (0 : Int) else 1) = 0
  exact if_pos hin

/-- A run against a store that already holds "alice", to which C2 applies; the
index left by a creating run on the empty store is `["alice"]`. -/
theorem local_conflict_witness :
    Call.storage_username_avail "alice" ∈
      (main [Opt.d "/var/stash", Opt.u "alice", Opt.p "secret"]
        (store_backend ["alice"]) (sample_stash 0 (0, 1) 0)).calls ∧
    main [Opt.d "/var/stash", Opt.u "alice", Opt.p "secret"]
        (store_backend ["alice"]) (sample_stash 0 (0, 1) 0)
      = conflict_run "/var/stash" "alice" ∧
    store_after [] (main [Opt.d "/var/stash", Opt.u "alice", Opt.p "secret"]
        (store_backend []) (sample_stash 0 (0, 1) 0)) = ["alice"] :=
  ⟨by decide,
   by
    obtain ⟨b, hb⟩ := (local_conflict [Opt.d "/var/stash", Opt.u "alice", Opt.p "secret"]
      (store_backend ["alice"]) (sample_stash 0 (0, 1) 0) "alice" (by decide)).1 (by decide)
    rw [hb]
    have : b = "/var/stash" := by
      have h2 := congrArg Run.calls hb
      simp [conflict_run, main, getopt_loop, Params.start, main_body, local_path,
        store_backend] at h2
      exact h2.symm
    rw [this],
   by decide⟩

/-! ## Running-instance method: result codes (claims C3 and C4) -/

/-- C3: in every run in which `stash_connect` is called and returns 0, a
create-username request is issued for the new username, and if its result
code is not `STASH_ERR_OK` then `main` returns 1, prints no "created"
message, issues no set-password request, and reports "already in use" when
the code is `STASH_ERR_USEREXISTS` and "Unexpected error" with the code
otherwise. -/
theorem remote_error_mapping (opts : List Opt) (L : Storage) (R : Stash)
    (hc : Call.stash_connect ∈ (main opts L R).calls) (h0 : R.stash_connect = 0) :
    ∃ u, Call.stash_create_username u ∈ (main opts L R).calls ∧
      ((R.stash_create_username u).1 ≠ R.STASH_ERR_OK →
        (main opts L R).ending = Ending.exit 1 ∧
        (∀ w, Msg.created w ∉ (main opts L R).msgs) ∧
        (∀ id pw, Call.stash_set_password id pw ∉ (main opts L R).calls) ∧
        ((R.stash_create_username u).1 = R.STASH_ERR_USEREXISTS →
          (main opts L R).msgs = [Msg.in_use u]) ∧
        ((R.stash_create_username u).1 ≠ R.STASH_ERR_USEREXISTS →
          (main opts L R).msgs = [Msg.unexpected_error (R.stash_create_username u).1])) := by
  rcases main_cases opts L R with h | ⟨q, b, w, _, _, _, _, hm⟩ | ⟨q, h, w, _, _, _, _, hm⟩
  · simp [h.1] at hc
  · rw [hm] at hc
    rcases local_path_shapes L b w q.newpass q.verbose with
      ⟨_, e⟩ | ⟨_, _, e⟩ | ⟨_, ha, _, e⟩ | ⟨id, pw, _, ha, _, _, _, e⟩ |
      ⟨id, _, ha, _, _, _, e⟩ <;>
    rw [e] at hc <;> simp [conflict_run] at hc
  · rw [hm] at hc ⊢
    refine ⟨w, ?_⟩
    rcases remote_path_shapes R h q.username q.password w q.newpass q.verbose with
      ⟨_, e⟩ | ⟨a, p, _, _, _, hn, e⟩ | ⟨a, p, _, _, _, _, hr, he, e⟩ |
      ⟨a, p, _, _, _, _, hr, he, e⟩ | ⟨a, p, _, _, _, _, hr, _, e⟩ |
      ⟨a, p, pw, _, _, _, _, hr, _, _, _, e⟩ | ⟨a, p, pw, _, _, _, _, hr, _, _, _, e⟩ |
      ⟨a, p, _, _, _, _, hr, _, _, e⟩ <;>
    rw [e] at hc ⊢ <;> simp at hc ⊢
    · exact absurd h0 hn
    · exact fun _ => he
    · exact fun _ => he
    · exact hr
    · exact hr
    · exact hr
    · exact hr

/-- A run whose create-username request returns the user-exists code, to which
C3 applies. -/
theorem remote_error_mapping_witness :
    Call.stash_connect ∈
      (main [Opt.H "localhost:13600", Opt.U "admin", Opt.P "adminpw", Opt.u "alice",
        Opt.p "secret"] (sample_storage true true 1 (some 1) true)
        (sample_stash 0 (5, 0) 0)).calls ∧
    (sample_stash 0 (5, 0) 0).stash_connect = 0 ∧
    (main [Opt.H "localhost:13600", Opt.U "admin", Opt.P "adminpw", Opt.u "alice",
        Opt.p "secret"] (sample_storage true true 1 (some 1) true)
        (sample_stash 0 (5, 0) 0)).ending = Ending.exit 1 :=
  ⟨by decide, by decide, by
    obtain ⟨u, _, hmap⟩ := remote_error_mapping [Opt.H "localhost:13600", Opt.U "admin",
      Opt.P "adminpw", Opt.u "alice", Opt.p "secret"] (sample_storage true true 1 (some 1) true)
      (sample_stash 0 (5, 0) 0) (by decide) (by decide)
    exact (hmap (by simp [sample_stash])).1⟩

/-- C4, the behaviour of the code: in every run in which `stash_connect`
is called and returns a non-zero code, `main` prints "Unable to connect",
issues no further request, and returns 0: `result` is never set to 1 on
this branch. -/
theorem connect_failure_returns_zero (opts : List Opt) (L : Storage) (R : Stash)
    (hc : Call.stash_connect ∈ (main opts L R).calls) (hne : R.stash_connect ≠ 0) :
    (main opts L R).ending = Ending.exit 0 ∧
    (main opts L R).msgs = [Msg.unable_to_connect R.stash_connect] ∧
    (∀ u, Call.stash_create_username u ∉ (main opts L R).calls) := by
  rcases main_cases opts L R with h | ⟨q, b, w, _, _, _, _, hm⟩ | ⟨q, h, w, _, _, _, _, hm⟩
  · simp [h.1] at hc
  · rw [hm] at hc
    rcases local_path_shapes L b w q.newpass q.verbose with
      ⟨_, e⟩ | ⟨_, _, e⟩ | ⟨_, ha, _, e⟩ | ⟨id, pw, _, ha, _, _, _, e⟩ |
      ⟨id, _, ha, _, _, _, e⟩ <;>
    rw [e] at hc <;> simp [conflict_run] at hc
  · rw [hm] at hc ⊢
    rcases remote_path_shapes R h q.username q.password w q.newpass q.verbose with
      ⟨_, e⟩ | ⟨a, p, _, _, _, hn, e⟩ | ⟨a, p, _, _, _, h0, _, _, e⟩ |
      ⟨a, p, _, _, _, h0, _, _, e⟩ | ⟨a, p, _, _, _, h0, _, _, e⟩ |
      ⟨a, p, pw, _, _, _, h0, _, _, _, _, e⟩ | ⟨a, p, pw, _, _, _, h0, _, _, _, _, e⟩ |
      ⟨a, p, _, _, _, h0, _, _, _, e⟩ <;>
    rw [e] at hc ⊢ <;> simp at hc ⊢ <;> exact absurd h0 hne

/-- A run whose `stash_connect` returns 3: `main` returns 0. -/
theorem connect_failure_returns_zero_witness :
    Call.stash_connect ∈
      (main [Opt.H "localhost:13600", Opt.U "admin", Opt.P "adminpw", Opt.u "alice"]
        (sample_storage true true 1 (some 1) true) (sample_stash 3 (0, 1) 0)).calls ∧
    (sample_stash 3 (0, 1) 0).stash_connect ≠ 0 ∧
    (main [Opt.H "localhost:13600", Opt.U "admin", Opt.P "adminpw", Opt.u "alice"]
        (sample_storage true true 1 (some 1) true) (sample_stash 3 (0, 1) 0)).ending
      = Ending.exit 0 :=
  ⟨by decide, by decide,
   (connect_failure_returns_zero [Opt.H "localhost:13600", Opt.U "admin", Opt.P "adminpw",
      Opt.u "alice"] (sample_storage true true 1 (some 1) true) (sample_stash 3 (0, 1) 0)
      (by decide) (by decide)).1⟩

/-! ## Direct file method: the master lock (claims C5, C6 and C7) -/

/-- C5, as stated, fails: when `storage_create_username` returns no user
record, `assert(user)` ends the process after the lock call, and neither
`storage_unlock_master` nor `storage_free` is issued. -/
theorem no_unlock_after_failed_assert :
    main [Opt.d "/var/stash", Opt.u "alice"]
      (sample_storage true true 1 none true) (sample_stash 0 (0, 1) 0)
      = ⟨[Call.storage_init, Call.storage_lock_master "/var/stash",
          Call.storage_process "/var/stash", Call.storage_username_avail "alice",
          Call.storage_create_username "alice"], [], Ending.abort⟩ := by
  decide

/-- C5, amended: in every run that reaches `storage_lock_master` for a
directory, if `main` returns (created or conflict, whatever the lock call
and the metadata load did) the last two calls are `storage_unlock_master`
for that directory and `storage_free`, after the lock call; the run ends
by a failed assertion exactly when a create-username call was issued and
returned no record or a record with a non-positive id, and then neither
unlock nor free is issued. -/
theorem unlock_and_free_on_return (opts : List Opt) (L : Storage) (R : Stash) (b : String)
    (hl : Call.storage_lock_master b ∈ (main opts L R).calls) :
    (∀ n, (main opts L R).ending = Ending.exit n →
      ∃ pre, (main opts L R).calls = pre ++ [Call.storage_unlock_master b, Call.storage_free] ∧
        Call.storage_lock_master b ∈ pre) ∧
    ((main opts L R).ending = Ending.abort ↔
      ∃ u, Call.storage_create_username u ∈ (main opts L R).calls ∧
        (L.storage_create_username u = none ∨
          ∃ id, L.storage_create_username u = some id ∧ id ≤ 0)) ∧
    ((main opts L R).ending = Ending.abort →
      Call.storage_unlock_master b ∉ (main opts L R).calls ∧
      Call.storage_free ∉ (main opts L R).calls) := by
  rcases main_cases opts L R with h | ⟨q, d, w, _, _, _, _, hm⟩ | ⟨q, h, w, _, _, _, _, hm⟩
  · simp [h.1] at hl
  · rw [hm] at hl ⊢
    rcases local_path_shapes L d w q.newpass q.verbose with
      ⟨_, e⟩ | ⟨_, _, e⟩ | ⟨_, ha, hn, e⟩ | ⟨id, pw, _, ha, hs, hp, _, e⟩ |
      ⟨id, _, ha, hs, hp, _, e⟩ <;>
    rw [e] at hl ⊢ <;> simp [conflict_run] at hl ⊢ <;> subst hl
    · exact ⟨[Call.storage_init, Call.storage_lock_master b, Call.storage_process b,
        Call.storage_username_avail w], by simp, by simp⟩
    · exact hn
    · refine ⟨⟨[Call.storage_init, Call.storage_lock_master b, Call.storage_process b,
        Call.storage_username_avail w, Call.storage_create_username w,
        Call.storage_set_password id pw], by simp, by simp⟩, ?_⟩
      simp [hs]; omega
    · refine ⟨⟨[Call.storage_init, Call.storage_lock_master b, Call.storage_process b,
        Call.storage_username_avail w, Call.storage_create_username w], by simp, by simp⟩, ?_⟩
      simp [hs]; omega
  · rw [hm] at hl
    rcases remote_path_shapes R h q.username q.password w q.newpass q.verbose with
      ⟨_, e⟩ | ⟨a, p, _, _, _, _, e⟩ | ⟨a, p, _, _, _, _, _, _, e⟩ |
      ⟨a, p, _, _, _, _, _, _, e⟩ | ⟨a, p, _, _, _, _, _, _, e⟩ |
      ⟨a, p, pw, _, _, _, _, _, _, _, _, e⟩ | ⟨a, p, pw, _, _, _, _, _, _, _, _, e⟩ |
      ⟨a, p, _, _, _, _, _, _, _, e⟩ <;>
    rw [e] at hl <;> simp at hl

/-- A run that returns after a failed metadata load, to which the amended C5
applies: unlock and free are the last two calls. -/
theorem unlock_and_free_on_return_witness :
    Call.storage_lock_master "/var/stash" ∈
      (main [Opt.d "/var/stash", Opt.u "alice", Opt.p "secret"]
        (sample_storage true false 1 (some 7) true) (sample_stash 0 (0, 1) 0)).calls ∧
    ∃ pre, (main [Opt.d "/var/stash", Opt.u "alice", Opt.p "secret"]
        (sample_storage true false 1 (some 7) true) (sample_stash 0 (0, 1) 0)).calls
      = pre ++ [Call.storage_unlock_master "/var/stash", Call.storage_free] ∧
      Call.storage_lock_master "/var/stash" ∈ pre :=
  ⟨by decide,
   (unlock_and_free_on_return [Opt.d "/var/stash", Opt.u "alice", Opt.p "secret"]
      (sample_storage true false 1 (some 7) true) (sample_stash 0 (0, 1) 0) "/var/stash"
      (by decide)).1 0 (by decide)⟩

/-- C6: in every run of the direct file method for directory `b`, the
storage calls are a subsequence of init, lock, process, avail, create,
set-password, unlock, free in this order (each at most once, the unlock
after every read and mutation); a process, avail, create, set-password or
unlock call is issued only in a run that issued the lock call; avail only
after process, create only after avail and only when avail answered
non-zero (available), set-password only after create. -/
theorem local_critical_section (opts : List Opt) (L : Storage) (R : Stash) (q : Params)
    (b : String) (hq : getopt_loop opts Params.start = .ok q) (hb : q.basedir = some b) :
    ∃ u id pw, (main opts L R).calls.Sublist (local_order b u id pw) ∧
      (∀ c ∈ (main opts L R).calls,
        c = Call.storage_process b ∨ c = Call.storage_username_avail u ∨
        c = Call.storage_create_username u ∨ c = Call.storage_set_password id pw ∨
        c = Call.storage_unlock_master b →
        Call.storage_lock_master b ∈ (main opts L R).calls) ∧
      (Call.storage_username_avail u ∈ (main opts L R).calls →
        Call.storage_process b ∈ (main opts L R).calls) ∧
      (Call.storage_create_username u ∈ (main opts L R).calls →
        Call.storage_username_avail u ∈ (main opts L R).calls ∧
        L.storage_username_avail u ≠ 0) ∧
      (Call.storage_set_password id pw ∈ (main opts L R).calls →
        Call.storage_create_username u ∈ (main opts L R).calls) := by
  rcases main_cases opts L R with h | ⟨q1, d, w, hq1, hd, _, _, hm⟩ | ⟨q1, h, w, hq1, hd, _, _, hm⟩
  · exact ⟨"", 0, "", by simp [h.1]⟩
  · rw [hq] at hq1
    cases hq1
    rw [hb] at hd
    cases hd
    rw [hm]
    rcases local_path_shapes L b w q.newpass q.verbose with
      ⟨_, e⟩ | ⟨_, _, e⟩ | ⟨_, ha, hn, e⟩ | ⟨id, pw, _, ha, hs, hp, _, e⟩ |
      ⟨id, _, ha, hs, hp, _, e⟩ <;>
    rw [e]
    · exact ⟨w, 0, "", by simp [local_order]⟩
    · exact ⟨w, 0, "", by simp [local_order, conflict_run]⟩
    · exact ⟨w, 0, "", by simp [local_order, ha]⟩
    · exact ⟨w, id, pw, by simp [local_order, ha]⟩
    · exact ⟨w, id, "", by simp [local_order, ha]⟩
  · rw [hq] at hq1
    cases hq1
    rw [hb] at hd
    cases hd

/-- A creating run with a password, to which C6 applies. -/
theorem local_critical_section_witness :
    getopt_loop [Opt.v, Opt.d "/var/stash", Opt.u "alice", Opt.p "secret"] Params.start
      = .ok ⟨some "/var/stash", some "alice", some "secret", none, none, none, 1⟩ ∧
    ∃ u id pw,
      (main [Opt.v, Opt.d "/var/stash", Opt.u "alice", Opt.p "secret"]
        (sample_storage true true 1 (some 7) true) (sample_stash 0 (0, 1) 0)).calls.Sublist
        (local_order "/var/stash" u id pw) :=
  ⟨rfl,
   by
    obtain ⟨u, id, pw, h, _⟩ := local_critical_section
      [Opt.v, Opt.d "/var/stash", Opt.u "alice", Opt.p "secret"]
      (sample_storage true true 1 (some 7) true) (sample_stash 0 (0, 1) 0)
      ⟨some "/var/stash", some "alice", some "secret", none, none, none, 1⟩ "/var/stash"
      rfl rfl
    exact ⟨u, id, pw, h⟩⟩

/-- C7, as stated, fails: with a lock call that does not acquire the lock,
`main` still loads the metadata, checks availability, creates the username,
sets the password and returns 0. -/
theorem failed_lock_run_proceeds :
    (sample_storage false true 1 (some 7) true).storage_lock_master "/var/stash" = false ∧
    main [Opt.d "/var/stash", Opt.u "alice", Opt.p "secret"]
      (sample_storage false true 1 (some 7) true) (sample_stash 0 (0, 1) 0)
      = ⟨[Call.storage_init, Call.storage_lock_master "/var/stash",
          Call.storage_process "/var/stash", Call.storage_username_avail "alice",
          Call.storage_create_username "alice", Call.storage_set_password 7 "secret",
          Call.storage_unlock_master "/var/stash", Call.storage_free], [], Ending.exit 0⟩ := by
  decide

/-- C7, amended: `main` does not examine what `storage_lock_master` did: the
run is the same (calls, messages, ending) whatever the lock call answers,
and whenever the lock call is issued the next call is `storage_process` on
the same directory. -/
theorem lock_result_is_not_examined (opts : List Opt) (L : Storage) (R : Stash) :
    (∀ f : String → Bool, main opts { L with storage_lock_master := f } R = main opts L R) ∧
    (∀ b, Call.storage_lock_master b ∈ (main opts L R).calls →
      ∃ pre post, (main opts L R).calls =
        pre ++ Call.storage_lock_master b :: Call.storage_process b :: post) := by
  refine ⟨fun f => rfl, ?_⟩
  intro b hl
  rcases main_cases opts L R with h | ⟨q, d, w, _, _, _, _, hm⟩ | ⟨q, h, w, _, _, _, _, hm⟩
  · simp [h.1] at hl
  · rw [hm] at hl ⊢
    rcases local_path_shapes L d w q.newpass q.verbose with
      ⟨_, e⟩ | ⟨_, _, e⟩ | ⟨_, _, _, e⟩ | ⟨id, pw, _, _, _, _, _, e⟩ |
      ⟨id, _, _, _, _, _, e⟩ <;>
    rw [e] at hl ⊢ <;> simp [conflict_run] at hl <;> subst hl <;>
    exact ⟨[Call.storage_init], _, rfl⟩
  · rw [hm] at hl
    rcases remote_path_shapes R h q.username q.password w q.newpass q.verbose with
      ⟨_, e⟩ | ⟨a, p, _, _, _, _, e⟩ | ⟨a, p, _, _, _, _, _, _, e⟩ |
      ⟨a, p, _, _, _, _, _, _, e⟩ | ⟨a, p, _, _, _, _, _, _, e⟩ |
      ⟨a, p, pw, _, _, _, _, _, _, _, _, e⟩ | ⟨a, p, pw, _, _, _, _, _, _, _, _, e⟩ |
      ⟨a, p, _, _, _, _, _, _, _, e⟩ <;>
    rw [e] at hl <;> simp at hl

/-- The amended C7 at a concrete run: the same run with a lock call that fails. -/
theorem lock_result_is_not_examined_witness :
    main [Opt.d "/var/stash", Opt.u "alice"]
      { sample_storage true true 1 (some 7) true with storage_lock_master := fun _ => false }
      (sample_stash 0 (0, 1) 0)
    = main [Opt.d "/var/stash", Opt.u "alice"]
      (sample_storage true true 1 (some 7) true) (sample_stash 0 (0, 1) 0) :=
  (lock_result_is_not_examined [Opt.d "/var/stash", Opt.u "alice"]
    (sample_storage true true 1 (some 7) true) (sample_stash 0 (0, 1) 0)).1 fun _ => false

/-! ## Password step (claim C8) -/

/-- C8, as stated, fails on both paths: on the running-instance method a
non-zero result of `stash_set_password` fails `assert(res == 0)` and the
process aborts; on the direct file method a failed `storage_set_password`
is not noticed: `main` prints "created" (with `-v`) and returns 0. -/
theorem password_failure_not_signalled :
    main [Opt.H "localhost:13600", Opt.U "admin", Opt.P "adminpw", Opt.u "alice",
        Opt.p "secret"] (sample_storage true true 1 (some 7) true) (sample_stash 0 (0, 7) 2)
      = ⟨[Call.stash_init, Call.stash_authority "admin" "adminpw",
          Call.stash_addserver "localhost:13600" 10, Call.stash_connect,
          Call.stash_create_username "alice", Call.stash_set_password 7 "secret"], [],
          Ending.abort⟩ ∧
    (sample_storage true true 1 (some 7) false).storage_set_password 7 "secret" = false ∧
    main [Opt.v, Opt.d "/var/stash", Opt.u "alice", Opt.p "secret"]
        (sample_storage true true 1 (some 7) false) (sample_stash 0 (0, 1) 0)
      = ⟨[Call.storage_init, Call.storage_lock_master "/var/stash",
          Call.storage_process "/var/stash", Call.storage_username_avail "alice",
          Call.storage_create_username "alice", Call.storage_set_password 7 "secret",
          Call.storage_unlock_master "/var/stash", Call.storage_free],
          [Msg.created "alice"], Ending.exit 0⟩ := by
  decide

/-- C8, amended: there is no password-set-failed outcome.  On the
running-instance method, a set-password request that returns a non-zero
code ends the process by a failed assertion, with nothing printed and the
session not freed.  On the direct file method the result of
`storage_set_password` is not examined: the run is the same whatever it
answers, and a run that issued it returns 0 and prints the "created"
message for the new username exactly when `verbose` is non-zero (nothing
otherwise). -/
theorem password_failure_outcomes (opts : List Opt) (L : Storage) (R : Stash) (id : Int)
    (pw : String) :
    (Call.stash_set_password id pw ∈ (main opts L R).calls →
      R.stash_set_password id pw ≠ 0 →
      (main opts L R).ending = Ending.abort ∧ (main opts L R).msgs = [] ∧
      Call.stash_free ∉ (main opts L R).calls) ∧
    (∀ f : Int → String → Bool,
      main opts { L with storage_set_password := f } R = main opts L R) ∧
    (Call.storage_set_password id pw ∈ (main opts L R).calls →
      (main opts L R).ending = Ending.exit 0 ∧
      ∃ q u, getopt_loop opts Params.start = .ok q ∧ q.newuser = some u ∧
        (main opts L R).msgs = if q.verbose ≠ 0 then [Msg.created u] else []) := by
  refine ⟨?_, fun f => rfl, ?_⟩ <;> intro hs
  · intro hne
    rcases main_cases opts L R with h | ⟨q, d, w, _, _, _, _, hm⟩ | ⟨q, h, w, _, _, _, _, hm⟩
    · simp [h.1] at hs
    · rw [hm] at hs
      rcases local_path_shapes L d w q.newpass q.verbose with
        ⟨_, e⟩ | ⟨_, _, e⟩ | ⟨_, _, _, e⟩ | ⟨id, pw, _, _, _, _, _, e⟩ |
        ⟨id, _, _, _, _, _, e⟩ <;>
      rw [e] at hs <;> simp [conflict_run] at hs
    · rw [hm] at hs ⊢
      rcases remote_path_shapes R h q.username q.password w q.newpass q.verbose with
        ⟨_, e⟩ | ⟨a, p, _, _, _, _, e⟩ | ⟨a, p, _, _, _, _, _, _, e⟩ |
        ⟨a, p, _, _, _, _, _, _, e⟩ | ⟨a, p, _, _, _, _, _, _, e⟩ |
        ⟨a, p, pw1, _, _, _, _, _, _, _, hx, e⟩ | ⟨a, p, pw1, _, _, _, _, _, _, _, hx, e⟩ |
        ⟨a, p, _, _, _, _, _, _, _, e⟩ <;>
      rw [e] at hs ⊢ <;> simp at hs ⊢
      obtain ⟨h1, h2⟩ := hs
      subst h1 h2
      exact absurd hx hne
  · rcases main_cases opts L R with h | ⟨q, d, w, hq, _, _, hu, hm⟩ | ⟨q, h, w, _, _, _, _, hm⟩
    · simp [h.1] at hs
    · rw [hm] at hs ⊢
      rcases local_path_shapes L d w q.newpass q.verbose with
        ⟨_, e⟩ | ⟨_, _, e⟩ | ⟨_, _, _, e⟩ | ⟨id, pw, _, _, _, _, _, e⟩ |
        ⟨id, _, _, _, _, _, e⟩ <;>
      rw [e] at hs ⊢ <;> simp [conflict_run] at hs
      exact ⟨rfl, q, w, hq, hu, rfl⟩
    · rw [hm] at hs
      rcases remote_path_shapes R h q.username q.password w q.newpass q.verbose with
        ⟨_, e⟩ | ⟨a, p, _, _, _, _, e⟩ | ⟨a, p, _, _, _, _, _, _, e⟩ |
        ⟨a, p, _, _, _, _, _, _, e⟩ | ⟨a, p, _, _, _, _, _, _, e⟩ |
        ⟨a, p, pw1, _, _, _, _, _, _, _, hx, e⟩ | ⟨a, p, pw1, _, _, _, _, _, _, _, hx, e⟩ |
        ⟨a, p, _, _, _, _, _, _, _, e⟩ <;>
      rw [e] at hs <;> simp at hs

/-- The amended C8 at two concrete runs, one on each path: the remote run
aborts, the local run with `-v` returns 0 and prints the "created" message. -/
theorem password_failure_outcomes_witness :
    (main [Opt.H "localhost:13600", Opt.U "admin", Opt.P "adminpw", Opt.u "alice",
        Opt.p "secret"] (sample_storage true true 1 (some 7) true)
        (sample_stash 0 (0, 7) 2)).ending = Ending.abort ∧
    (main [Opt.v, Opt.d "/var/stash", Opt.u "alice", Opt.p "secret"]
        (sample_storage true true 1 (some 7) false) (sample_stash 0 (0, 1) 0)).ending
      = Ending.exit 0 ∧
    ∃ q u, getopt_loop [Opt.v, Opt.d "/var/stash", Opt.u "alice", Opt.p "secret"] Params.start
        = .ok q ∧ q.newuser = some u ∧
      (main [Opt.v, Opt.d "/var/stash", Opt.u "alice", Opt.p "secret"]
        (sample_storage true true 1 (some 7) false) (sample_stash 0 (0, 1) 0)).msgs
        = if q.verbose ≠ 0 then [Msg.created u] else [] :=
  ⟨((password_failure_outcomes [Opt.H "localhost:13600", Opt.U "admin", Opt.P "adminpw",
      Opt.u "alice", Opt.p "secret"] (sample_storage true true 1 (some 7) true)
      (sample_stash 0 (0, 7) 2) 7 "secret").1 (by decide) (by decide)).1,
   (password_failure_outcomes [Opt.v, Opt.d "/var/stash", Opt.u "alice", Opt.p "secret"]
      (sample_storage true true 1 (some 7) false) (sample_stash 0 (0, 1) 0) 7 "secret").2.2
      (by decide)⟩

/-! ## Running-instance method: request discipline (claim C9) -/

/-- C9, as stated, fails: a create-username request that returns
`STASH_ERR_OK` and leaves `uid` at 0, with a new password supplied, is
followed by no set-password request: `assert(uid > 0)` ends the process. -/
theorem no_set_password_for_zero_uid :
    ((sample_stash 0 (0, 0) 0).stash_create_username "alice").1
      = (sample_stash 0 (0, 0) 0).STASH_ERR_OK ∧
    main [Opt.H "localhost:13600", Opt.U "admin", Opt.P "adminpw", Opt.u "alice",
        Opt.p "secret"] (sample_storage true true 1 (some 7) true) (sample_stash 0 (0, 0) 0)
      = ⟨[Call.stash_init, Call.stash_authority "admin" "adminpw",
          Call.stash_addserver "localhost:13600" 10, Call.stash_connect,
          Call.stash_create_username "alice"], [], Ending.abort⟩ := by
  decide

/-- C9, amended: in every run of the running-instance method the client
calls are a subsequence of init, authority, addserver, connect,
create-username, set-password, err_text, free in this order (so at most one
create-username and at most one set-password request, in that order); a
create-username request is issued only after `stash_connect` returned 0; a
set-password request for user id `id` with password `pw` is issued if and
only if the create-username request returned `STASH_ERR_OK` with the
positive user id `id` and `pw` is the new password supplied. -/
theorem remote_request_discipline (opts : List Opt) (L : Storage) (R : Stash) (q : Params)
    (hq : getopt_loop opts Params.start = .ok q) (hb : q.basedir = none) :
    (∃ a p h u id pw r, (main opts L R).calls.Sublist (remote_order a p h u id pw r)) ∧
    (∀ u, Call.stash_create_username u ∈ (main opts L R).calls →
      Call.stash_connect ∈ (main opts L R).calls ∧ R.stash_connect = 0) ∧
    (∀ id pw, Call.stash_set_password id pw ∈ (main opts L R).calls ↔
      ∃ u, Call.stash_create_username u ∈ (main opts L R).calls ∧
        (R.stash_create_username u).1 = R.STASH_ERR_OK ∧
        (R.stash_create_username u).2 = id ∧ 0 < id ∧ q.newpass = some pw) := by
  rcases main_cases opts L R with h | ⟨q1, d, w, hq1, hd, _, _, hm⟩ | ⟨q1, h, w, hq1, hd, _, _, hm⟩
  · simp [h.1]
  · rw [hq] at hq1
    cases hq1
    rw [hb] at hd
    cases hd
  · rw [hq] at hq1
    cases hq1
    rw [hm]
    rcases remote_path_shapes R h q.username q.password w q.newpass q.verbose with
      ⟨_, e⟩ | ⟨a, p, _, _, _, hn, e⟩ | ⟨a, p, _, _, _, h0, hr, _, e⟩ |
      ⟨a, p, _, _, _, h0, hr, _, e⟩ | ⟨a, p, _, _, _, h0, hr, hi, e⟩ |
      ⟨a, p, pw1, _, _, _, h0, hr, hi, hp, _, e⟩ | ⟨a, p, pw1, _, _, _, h0, hr, hi, hp, _, e⟩ |
      ⟨a, p, _, _, _, h0, hr, hi, hp, e⟩ <;>
    rw [e]
    · exact ⟨⟨"", "", "", "", 0, "", 0, by simp [remote_order]⟩, by simp, by simp⟩
    · exact ⟨⟨a, p, h, "", 0, "", R.stash_connect, by simp [remote_order]⟩, by simp, by simp⟩
    · exact ⟨⟨a, p, h, w, 0, "", 0, by simp [remote_order]⟩, by simp [h0], by simp [hr]⟩
    · exact ⟨⟨a, p, h, w, 0, "", (R.stash_create_username w).1, by simp [remote_order]⟩,
        by simp [h0], by simp [hr]⟩
    · refine ⟨⟨a, p, h, w, 0, "", 0, by simp [remote_order]⟩, by simp [h0], ?_⟩
      intro id pw
      simp [hr]
      intro h1 h2
      omega
    · refine ⟨⟨a, p, h, w, (R.stash_create_username w).2, pw1, 0, by simp [remote_order]⟩,
        by simp [h0], ?_⟩
      intro id pw
      simp [hr, hp]
      constructor
      · rintro ⟨h1, h2⟩
        subst h1 h2
        exact ⟨rfl, hi, rfl⟩
      · rintro ⟨h1, _, h2⟩
        exact ⟨h1.symm, h2.symm⟩
    · refine ⟨⟨a, p, h, w, (R.stash_create_username w).2, pw1, 0, by simp [remote_order]⟩,
        by simp [h0], ?_⟩
      intro id pw
      simp [hr, hp]
      constructor
      · rintro ⟨h1, h2⟩
        subst h1 h2
        exact ⟨rfl, hi, rfl⟩
      · rintro ⟨h1, _, h2⟩
        exact ⟨h1.symm, h2.symm⟩
    · exact ⟨⟨a, p, h, w, 0, "", 0, by simp [remote_order]⟩, by simp [h0], by simp [hr, hp]⟩

/-- A run whose create-username request returns ok with user id 7, to which the
amended C9 applies: the set-password request goes to user 7. -/
theorem remote_request_discipline_witness :
    getopt_loop [Opt.H "localhost:13600", Opt.U "admin", Opt.P "adminpw", Opt.u "alice",
        Opt.p "secret"] Params.start
      = .ok ⟨none, some "alice", some "secret", some "localhost:13600", some "admin",
          some "adminpw", 0⟩ ∧
    Call.stash_set_password 7 "secret" ∈
      (main [Opt.H "localhost:13600", Opt.U "admin", Opt.P "adminpw", Opt.u "alice",
        Opt.p "secret"] (sample_storage true true 1 (some 1) true)
        (sample_stash 0 (0, 7) 0)).calls :=
  ⟨rfl,
   ((remote_request_discipline [Opt.H "localhost:13600", Opt.U "admin", Opt.P "adminpw",
      Opt.u "alice", Opt.p "secret"] (sample_storage true true 1 (some 1) true)
      (sample_stash 0 (0, 7) 0)
      ⟨none, some "alice", some "secret", some "localhost:13600", some "admin",
        some "adminpw", 0⟩ rfl rfl).2.2 7 "secret").mpr
     ⟨"alice", by decide, rfl, rfl, by decide, rfl⟩⟩

/-! ## Parameter check: the new username (claim C10) -/

/-- C10, as stated, fails: an empty new username (`-u ""`) passes the
parameter check, and the direct file method hands it to
`storage_create_username` and returns 0. -/
theorem empty_username_is_dispatched :
    main [Opt.d "/var/stash", Opt.u ""]
      (sample_storage true true 1 (some 1) true) (sample_stash 0 (0, 1) 0)
      = ⟨[Call.storage_init, Call.storage_lock_master "/var/stash",
          Call.storage_process "/var/stash", Call.storage_username_avail "",
          Call.storage_create_username "", Call.storage_unlock_master "/var/stash",
          Call.storage_free], [], Ending.exit 0⟩ := by
  decide

/-- C10, amended: when no `-u` is supplied `main` issues no library call,
and unless `-h` is among the options it ends with status 1; every
create-username call, to either library, carries the argument of a `-u`
option (which may be the empty string). -/
theorem missing_username_no_dispatch (opts : List Opt) (L : Storage) (R : Stash) :
    ((∀ s, Opt.u s ∉ opts) →
      (main opts L R).calls = [] ∧
      (Opt.h ∉ opts → (main opts L R).ending = Ending.exit 1)) ∧
    (∀ s, Call.storage_create_username s ∈ (main opts L R).calls → Opt.u s ∈ opts) ∧
    (∀ s, Call.stash_create_username s ∈ (main opts L R).calls → Opt.u s ∈ opts) := by
  rcases main_cases opts L R with h | ⟨q, b, u, hq, hb, hh, hu, hm⟩ | ⟨q, h, u, hq, hb, hh, hu, hm⟩
  · refine ⟨fun _ => h, ?_, ?_⟩ <;> simp [h.1]
  · have hmem : Opt.u u ∈ opts := by
      rcases getopt_loop_newuser opts _ _ hq u hu with h1 | h1
      · simp [Params.start] at h1
      · exact h1
    refine ⟨fun hno => absurd hmem (hno u), ?_, ?_⟩ <;> intro s hs <;> rw [hm] at hs <;>
      rcases local_path_shapes L b u q.newpass q.verbose with
        ⟨_, e⟩ | ⟨_, _, e⟩ | ⟨_, _, _, e⟩ | ⟨id, pw, _, _, _, _, _, e⟩ | ⟨id, _, _, _, _, _, e⟩ <;>
      rw [e] at hs <;> simp [conflict_run] at hs <;> simp [hs, hmem]
  · have hmem : Opt.u u ∈ opts := by
      rcases getopt_loop_newuser opts _ _ hq u hu with h1 | h1
      · simp [Params.start] at h1
      · exact h1
    refine ⟨fun hno => absurd hmem (hno u), ?_, ?_⟩ <;> intro s hs <;> rw [hm] at hs <;>
      rcases remote_path_shapes R h q.username q.password u q.newpass q.verbose with
        ⟨_, e⟩ | ⟨a, p, _, _, _, _, e⟩ | ⟨a, p, _, _, _, _, _, _, e⟩ |
        ⟨a, p, _, _, _, _, _, _, e⟩ | ⟨a, p, _, _, _, _, _, _, e⟩ |
        ⟨a, p, pw, _, _, _, _, _, _, _, _, e⟩ | ⟨a, p, pw, _, _, _, _, _, _, _, _, e⟩ |
        ⟨a, p, _, _, _, _, _, _, _, e⟩ <;>
      rw [e] at hs <;> simp at hs <;> simp [hs, hmem]

/-- A run with `-d` only, to which the amended C10 applies: no call. -/
theorem missing_username_no_dispatch_witness :
    (∀ s, Opt.u s ∉ [Opt.d "/var/stash", Opt.p "secret"]) ∧
    (main [Opt.d "/var/stash", Opt.p "secret"]
      (sample_storage true true 1 (some 1) true) (sample_stash 0 (0, 1) 0)).calls = [] :=
  ⟨by simp,
   ((missing_username_no_dispatch [Opt.d "/var/stash", Opt.p "secret"]
      (sample_storage true true 1 (some 1) true) (sample_stash 0 (0, 1) 0)).1 (by simp)).1⟩

end StashAdduser
